import Mathlib

/-!
Verification of the PulseAI ESP32 smartwatch firmware
(src/esp32-smartwatch-firmware.ino).

The firmware is a single cooperative control loop over global mutable
state.  We embed the state-mutating fragments of that loop as pure Lean
functions over explicit state records:

* magnitudes and vital-sign values ('float' in the source) are modelled
  as rationals: the control logic only compares them against constant
  thresholds, and on those comparisons the rationals agree with the
  exact real arithmetic the source expresses;
* 'millis()' timestamps ('unsigned long') are modelled as naturals, and
  the source's unsigned differences 'millis() - t0' as truncated Nat
  subtraction (the firmware always subtracts an earlier timestamp);
* external inputs (sensor readings, the pluggable beat detector, the
  SpO2 estimation routine, GSM serial traffic, HTTP response codes) are
  oracle arguments of each step function;
* observable side effects (an SMS send, a value pushed into the beat
  history, a payload posted) are returned as explicit events.
-/

namespace PulseAI

/-! ## Configuration constants (lines 40-138 of the source) -/

def DATA_INTERVAL : Nat := 120000
def HTTP_TIMEOUT : Nat := 10000
def MAX_UPLOAD_RETRIES : Nat := 3
def CALL_INTERVAL : Nat := 30000

def HR_HIGH_THRESH : ℚ := 140
def HR_LOW_THRESH : ℚ := 40
def SPO2_LOW_THRESH : ℚ := 90

def ACCEL_FALL_THRESH : ℚ := 25
def GYRO_FALL_THRESH : ℚ := 200
def FALL_CONFIRM_DELAY : Nat := 300
def POST_FALL_STILLNESS_THRESH : ℚ := 12

def RATE_SIZE : Nat := 8
def BUFFER_LENGTH : Nat := 100
def SPO2_CALC_INTERVAL : Nat := 5000
def SPO2_SAMPLE_INTERVAL : Nat := 10

def DATA_QUEUE_SIZE : Nat := 5

/-- The cause string passed to triggerEmergency on a confirmed fall
(line 413 of the source). -/
def FALL_CAUSE : String := "FALL DETECTED! User may be unresponsive."

/-! ## Emergency escalation state (globals emergencyActive,
emergencyHandled, lastCallTime; lines 79-82) -/

structure EmergencyState where
  emergencyActive : Bool
  emergencyHandled : Bool
  lastCallTime : Nat
deriving Repr, DecidableEq

/-- Boot values of the emergency globals. -/
def bootEm : EmergencyState := { emergencyActive := false, emergencyHandled := false, lastCallTime := 0 }

/-- triggerEmergency (lines 883-894).  Returns the new state and the
SMS notification sent (the message text), if any.  The source computes
'lastCallTime = millis() - CALL_INTERVAL' to force an immediate first
call; the unsigned wrap-around is modelled as truncated subtraction. -/
def triggerEmergency (s : EmergencyState) (now : Nat) (msg : String) : EmergencyState × Option String :=
  if s.emergencyActive = true ∨ s.emergencyHandled = true then (s, none)
  else
    ({ emergencyActive := true, emergencyHandled := false, lastCallTime := now - CALL_INTERVAL },
     some msg)

/-- A sequence of calls to triggerEmergency (each with its time and
cause message), returning the final state and the number of
notification SMS sends performed. -/
def triggerSeq (s : EmergencyState) : List (Nat × String) → EmergencyState × Nat
  | [] => (s, 0)
  | (t, m) :: rest =>
    let r1 := triggerEmergency s t m
    let r2 := triggerSeq r1.1 rest
    (r2.1, (match r1.2 with | some _ => 1 | none => 0) + r2.2)

/-! ## Fall detection (globals fallPending, fallDetectedTime; loop
lines 396-430) -/

structure FallState where
  fallPending : Bool
  fallDetectedTime : Nat
  em : EmergencyState
deriving Repr, DecidableEq

def bootFall : FallState := { fallPending := false, fallDetectedTime := 0, em := bootEm }

/-- Stage 1 (lines 396-403): an impact (both magnitudes above their
thresholds) starts a confirmation candidate when none is pending and no
emergency is active or handled. -/
def fallImpact (s : FallState) (now : Nat) (accelMag gyroMag : ℚ) : FallState :=
  if ACCEL_FALL_THRESH < accelMag ∧ GYRO_FALL_THRESH < gyroMag ∧
     s.fallPending = false ∧ s.em.emergencyActive = false ∧ s.em.emergencyHandled = false then
    { s with fallPending := true, fallDetectedTime := now }
  else s

/-- Stage 2 (lines 406-424): once the confirmation delay has elapsed,
the candidate is resolved: stillness confirms the fall (raising the
emergency when idle), movement discards it. -/
def fallConfirm (s : FallState) (now : Nat) (accelMag : ℚ) : FallState × Option String :=
  if s.fallPending = true ∧ FALL_CONFIRM_DELAY ≤ now - s.fallDetectedTime then
    if accelMag < POST_FALL_STILLNESS_THRESH then
      if s.em.emergencyActive = false ∧ s.em.emergencyHandled = false then
        let t := triggerEmergency s.em now FALL_CAUSE
        ({ s with fallPending := false, em := t.1 }, t.2)
      else ({ s with fallPending := false }, none)
    else ({ s with fallPending := false }, none)
  else (s, none)

/-- Timeout (lines 427-430): a candidate older than one second is
dropped. -/
def fallTimeout (s : FallState) (now : Nat) : FallState :=
  if s.fallPending = true ∧ 1000 < now - s.fallDetectedTime then
    { s with fallPending := false }
  else s

/-- One control-loop pass of the fall detector, in source order.  The
second component is the cause of the emergency raised this pass, if
any. -/
def fallStep (s : FallState) (now : Nat) (accelMag gyroMag : ℚ) : FallState × Option String :=
  let s1 := fallImpact s now accelMag gyroMag
  let r := fallConfirm s1 now accelMag
  (fallTimeout r.1 now, r.2)

/-- A run of the fall detector over a trace of (time, accel magnitude,
gyro magnitude) samples, collecting the raised emergencies. -/
def fallRun (s : FallState) : List (Nat × ℚ × ℚ) → FallState × List String
  | [] => (s, [])
  | (t, am, gm) :: rest =>
    let r := fallStep s t am gm
    let rr := fallRun r.1 rest
    (rr.1, (match r.2 with | some c => [c] | none => []) ++ rr.2)

/-! ## Inbound SMS command channel (checkForIncomingSMS, lines
949-1007) -/

/-- What one read of the GSM serial line yielded, as seen by
checkForIncomingSMS: whether data was available, whether it carried a
+CMTI new-message marker, and whether the fetched message content
contains the acknowledgment keyword (OK/ok) or the resume keyword
(Resume/resume).  The keyword tests abstract the source's
String.indexOf containment checks on external serial input. -/
structure SmsPoll where
  avail : Bool
  hasCMTI : Bool
  contentHasOK : Bool
  contentHasResume : Bool
deriving Repr, DecidableEq

/-- checkForIncomingSMS: an acknowledgment message stops the escalation
(Active to Handled); a resume message re-arms it; anything else is
ignored.  The OK check precedes the Resume check (else-if). -/
def checkForIncomingSMS (s : EmergencyState) (p : SmsPoll) : EmergencyState :=
  if p.avail = true ∧ p.hasCMTI = true then
    if p.contentHasOK = true then
      { s with emergencyActive := false, emergencyHandled := true }
    else if p.contentHasResume = true then
      { s with emergencyActive := true, emergencyHandled := false }
    else s
  else s

/-! ## Call monitoring inside handleEmergencyCalls (lines 907-937) -/

/-- One poll cycle of the bounded call-monitor wait: the SMS check plus
the AT+CLCC call-status query (clccAnswered abstracts the response
containing the answered marker). -/
structure CallPoll where
  sms : SmsPoll
  clccAvail : Bool
  clccAnswered : Bool
deriving Repr, DecidableEq

inductive CallOutcome where
  /-- The wait ended because an acknowledgment SMS arrived; the call was
  hung up (ATH) and handleEmergencyCalls returned at once. -/
  | ackBySMS
  /-- The call was answered (+CLCC active status); hang up, mark
  handled. -/
  | answered
  /-- The poll budget (25 seconds) ran out with no answer. -/
  | noAnswer
deriving Repr, DecidableEq

/-- The monitoring loop of one call attempt (lines 912-937).  The poll
list stands for the successive iterations of the bounded 25-second
wait; the result carries the final emergency state, the outcome, and
the number of poll cycles consumed. -/
def monitorCall (s : EmergencyState) : List CallPoll → EmergencyState × CallOutcome × Nat
  | [] => (s, CallOutcome.noAnswer, 0)
  | p :: ps =>
    if (checkForIncomingSMS s p.sms).emergencyHandled = true then
      (checkForIncomingSMS s p.sms, CallOutcome.ackBySMS, 1)
    else if p.clccAvail = true ∧ p.clccAnswered = true then
      ({ checkForIncomingSMS s p.sms with emergencyActive := false, emergencyHandled := true },
        CallOutcome.answered, 1)
    else
      ((monitorCall (checkForIncomingSMS s p.sms) ps).1,
       (monitorCall (checkForIncomingSMS s p.sms) ps).2.1,
       (monitorCall (checkForIncomingSMS s p.sms) ps).2.2 + 1)

/-- A poll cycle that terminates neither branch of the monitor loop:
no acknowledgment SMS and no answered call status. -/
def quietPoll (p : CallPoll) : Prop :=
  ¬(p.sms.avail = true ∧ p.sms.hasCMTI = true ∧ p.sms.contentHasOK = true) ∧
  ¬(p.clccAvail = true ∧ p.clccAnswered = true)

instance : DecidablePred quietPoll := fun p => by unfold quietPoll; infer_instance

/-! ## The emergency flag machine over every mutating event (C10) -/

/-- Every event in the firmware that writes the pair
(emergencyActive, emergencyHandled): a detector trigger (fall or
vitals, both through triggerEmergency), a manual trigger
(triggerManualEmergency, which force-resets the flags first, lines
812-815), the call-answered transition inside handleEmergencyCalls
(lines 928-935, reachable only while Active and not Handled), an
inbound SMS poll, and the local serial reset command (lines 776-780). -/
inductive EmEvent where
  | detectorTrigger (now : Nat) (msg : String)
  | manualTrigger (now : Nat) (msg : String)
  | callAnswered
  | smsPoll (p : SmsPoll)
  | resetCmd

def emStep (s : EmergencyState) : EmEvent → EmergencyState
  | EmEvent.detectorTrigger now msg => (triggerEmergency s now msg).1
  | EmEvent.manualTrigger now msg =>
      (triggerEmergency { s with emergencyActive := false, emergencyHandled := false } now msg).1
  | EmEvent.callAnswered =>
      if s.emergencyActive = true ∧ s.emergencyHandled = false then
        { s with emergencyActive := false, emergencyHandled := true }
      else s
  | EmEvent.smsPoll p => checkForIncomingSMS s p
  | EmEvent.resetCmd => { s with emergencyActive := false, emergencyHandled := false }

def emRun (s : EmergencyState) (evs : List EmEvent) : EmergencyState :=
  evs.foldl emStep s

/-! ## WiFi upload path (sendDataViaWiFi, lines 510-532) -/

/-- The retry loop of sendDataViaWiFi: 'resp i' is the response code
http.POST returns on the i-th attempt (i counted from 1, as in the
source); a positive code ends the loop with success, otherwise the next
attempt runs until the budget is exhausted. -/
def wifiLoop (resp : Nat → Int) : Nat → Nat → Bool
  | 0, _ => false
  | fuel + 1, attempt => if 0 < resp attempt then true else wifiLoop resp fuel (attempt + 1)

/-- Number of POST attempts the loop performs. -/
def wifiAttemptsUsed (resp : Nat → Int) : Nat → Nat → Nat
  | 0, _ => 0
  | fuel + 1, attempt =>
    if 0 < resp attempt then 1 else 1 + wifiAttemptsUsed resp fuel (attempt + 1)

/-- sendDataViaWiFi: immediately false when WiFi is down, otherwise the
bounded retry loop with MAX_UPLOAD_RETRIES attempts starting at attempt
number 1. -/
def sendDataViaWiFi (wifiConnected : Bool) (resp : Nat → Int) : Bool :=
  if wifiConnected = true then wifiLoop resp MAX_UPLOAD_RETRIES 1 else false

/-! ## JSON payloads posted to the ingestion endpoint (C6) -/

inductive JVal where
  | jstr (v : String)
  | jnum (v : ℚ)
  | jnat (v : Nat)
  | jbool (v : Bool)
deriving Repr, DecidableEq

/-- The periodic / emergency-upload payload built by sendDataToCloud
(lines 473-489), key-value pairs in source insertion order. -/
def periodicPayload (deviceId : String) (hr spo2 ax ay az gx gy gz : ℚ) (timestamp : Nat) :
    List (String × JVal) :=
  [("device_id", JVal.jstr deviceId), ("heart_rate", JVal.jnum hr), ("spo2", JVal.jnum spo2),
   ("accel_x", JVal.jnum ax), ("accel_y", JVal.jnum ay), ("accel_z", JVal.jnum az),
   ("gyro_x", JVal.jnum gx), ("gyro_y", JVal.jnum gy), ("gyro_z", JVal.jnum gz),
   ("timestamp", JVal.jnat timestamp), ("gps_lat", JVal.jnum 0), ("gps_long", JVal.jnum 0)]

/-- The queued-retry payload built by uploadQueuedData for a pending
slot (lines 717-729): it carries the queued flag but no timestamp
field. -/
def queuedPayload (deviceId : String) (hr spo2 ax ay az gx gy gz : ℚ) :
    List (String × JVal) :=
  [("device_id", JVal.jstr deviceId), ("heart_rate", JVal.jnum hr), ("spo2", JVal.jnum spo2),
   ("accel_x", JVal.jnum ax), ("accel_y", JVal.jnum ay), ("accel_z", JVal.jnum az),
   ("gyro_x", JVal.jnum gx), ("gyro_y", JVal.jnum gy), ("gyro_z", JVal.jnum gz),
   ("queued", JVal.jbool true), ("gps_lat", JVal.jnum 0), ("gps_long", JVal.jnum 0)]

/-- The manually-triggered emergency payload built by
sendEmergencyDataToCloud (lines 843-857), with the emergency and
manual_trigger flags. -/
def emergencyPayload (deviceId : String) (hr spo2 ax ay az gx gy gz : ℚ) (timestamp : Nat) :
    List (String × JVal) :=
  [("device_id", JVal.jstr deviceId), ("heart_rate", JVal.jnum hr), ("spo2", JVal.jnum spo2),
   ("accel_x", JVal.jnum ax), ("accel_y", JVal.jnum ay), ("accel_z", JVal.jnum az),
   ("gyro_x", JVal.jnum gx), ("gyro_y", JVal.jnum gy), ("gyro_z", JVal.jnum gz),
   ("timestamp", JVal.jnat timestamp), ("emergency", JVal.jbool true),
   ("manual_trigger", JVal.jbool true), ("gps_lat", JVal.jnum 0), ("gps_long", JVal.jnum 0)]

/-! ## Offline data queue (queueData / uploadQueuedData, lines 129-138,
695-758) -/

/-- One slot of the offline queue (struct SensorData, lines 130-136). -/
structure SensorData where
  hr : ℚ
  spo2 : ℚ
  accel_x : ℚ
  accel_y : ℚ
  accel_z : ℚ
  gyro_x : ℚ
  gyro_y : ℚ
  gyro_z : ℚ
  pending : Bool
deriving Repr, DecidableEq

/-- The all-zero, not-pending slot the boot loop initialises (lines
154-156). -/
def emptySlot : SensorData :=
  { hr := 0, spo2 := 0, accel_x := 0, accel_y := 0, accel_z := 0,
    gyro_x := 0, gyro_y := 0, gyro_z := 0, pending := false }

/-- The queue globals (dataQueue, queueHead), plus ghost history: tick
counts the enqueues performed so far and stamps records, per slot, the
tick at which it was last written by queueData. -/
structure QueueState where
  dataQueue : List SensorData
  queueHead : Nat
  stamps : List Nat
  tick : Nat
deriving Repr, DecidableEq

def bootQueue : QueueState :=
  { dataQueue := List.replicate DATA_QUEUE_SIZE emptySlot, queueHead := 0,
    stamps := List.replicate DATA_QUEUE_SIZE 0, tick := 0 }

/-- queueData (lines 695-708): write the reading at queueHead, mark it
pending, advance queueHead modulo the capacity. -/
def queueData (q : QueueState) (d : SensorData) : QueueState :=
  { dataQueue := q.dataQueue.set q.queueHead { d with pending := true },
    queueHead := (q.queueHead + 1) % DATA_QUEUE_SIZE,
    stamps := q.stamps.set q.queueHead q.tick,
    tick := q.tick + 1 }

/-- The effect of a successful retry in uploadQueuedData (line 747):
slot i stops being pending; head and data stay. -/
def clearSlot (q : QueueState) (i : Nat) : QueueState :=
  { q with dataQueue := q.dataQueue.set i { q.dataQueue.getD i emptySlot with pending := false } }

/-- The operations that touch the queue. -/
inductive QOp where
  | enq (d : SensorData)
  | clear (i : Nat)

def qApply (q : QueueState) : QOp → QueueState
  | QOp.enq d => queueData q d
  | QOp.clear i => clearSlot q i

def qRun (q : QueueState) (ops : List QOp) : QueueState :=
  ops.foldl qApply q

/-- Structural invariant of the queue: fixed shape, head always the
enqueue counter modulo the capacity, and every pending slot stamped
with a recent enqueue tick congruent to its index. -/
def QInv (q : QueueState) : Prop :=
  q.dataQueue.length = DATA_QUEUE_SIZE ∧
  q.stamps.length = DATA_QUEUE_SIZE ∧
  q.queueHead = q.tick % DATA_QUEUE_SIZE ∧
  ∀ i, i < DATA_QUEUE_SIZE → (q.dataQueue.getD i emptySlot).pending = true →
    q.stamps.getD i 0 < q.tick ∧ q.tick ≤ q.stamps.getD i 0 + DATA_QUEUE_SIZE ∧
    q.stamps.getD i 0 % DATA_QUEUE_SIZE = i

/-! ## Vital-sign acquisition pipeline (loop lines 293-391) -/

/-- The acquisition-pipeline globals (lines 84-126): the BeatHistory
ring (rates, rateSpot, validBeatCount, beatAvg, plus lastBeat), the
cached vitals (lastValidHR, lastValidSpO2), the contact tracker
(wasFingerDetected) and the non-blocking SpO2 collection state. -/
structure VitalState where
  rates : List Nat
  rateSpot : Nat
  lastBeat : Nat
  beatAvg : Nat
  validBeatCount : Nat
  lastValidHR : ℚ
  lastValidSpO2 : ℚ
  wasFingerDetected : Bool
  spo2CollectionActive : Bool
  spo2SampleIndex : Nat
  lastSpO2Calc : Nat
  lastSpo2Sample : Nat
deriving Repr, DecidableEq

/-- Boot values of the pipeline globals. -/
def bootVitals : VitalState :=
  { rates := List.replicate RATE_SIZE 0, rateSpot := 0, lastBeat := 0, beatAvg := 0,
    validBeatCount := 0, lastValidHR := 0, lastValidSpO2 := 0, wasFingerDetected := false,
    spo2CollectionActive := false, spo2SampleIndex := 0, lastSpO2Calc := 0, lastSpo2Sample := 0 }

/-- The per-iteration external inputs of the pipeline: the clock, the
raw infrared intensity, the pluggable beat detector's verdict
(checkForBeat), sensor FIFO availability, and the output of the
external SpO2 estimation routine
(maxim_heart_rate_and_oxygen_saturation) consumed when the window
completes this iteration. -/
structure VitalsInput where
  now : Nat
  irValue : Nat
  beatDetected : Bool
  sensorAvail : Bool
  spo2Value : Int
  validSPO2 : Bool
  heartRateValue : Int
  validHeartRate : Bool
deriving Repr, DecidableEq

/-- Sum of the first n BeatHistory entries, as the averaging loop at
line 329 computes it. -/
def beatSum (rates : List Nat) : Nat → Nat
  | 0 => 0
  | n + 1 => beatSum rates n + rates.getD n 0

/-- The finger-removal reset (lines 301-311): when contact is lost
after having been present, clear the whole BeatHistory ring and the
cached vitals. -/
def resetOnRemoval (s : VitalState) (fd : Bool) : VitalState :=
  if fd = false ∧ s.wasFingerDetected = true then
    { s with rates := List.replicate RATE_SIZE 0, rateSpot := 0, validBeatCount := 0,
             beatAvg := 0, lastValidHR := 0, lastValidSpO2 := 0, lastBeat := 0 }
  else s

/-- Beat processing (lines 315-334): on a detected beat with contact,
compute the instantaneous rate from the inter-beat interval
(60 / (delta / 1000.0) = 60000 / delta, exactly, over the rationals);
reject it outside [40, 180] bpm, otherwise push its byte truncation
into the ring, bump the valid count, and recompute the integer-mean
average.  The second component is the sample stored, if any. -/
def processBeat (s : VitalState) (fd beat : Bool) (now : Nat) : VitalState × Option Nat :=
  if fd = true ∧ beat = true then
    let delta := now - s.lastBeat
    let bpm : ℚ := 60000 / (delta : ℚ)
    if 40 ≤ bpm ∧ bpm ≤ 180 then
      let v := (Int.floor bpm).toNat
      let rates := s.rates.set s.rateSpot v
      let vbc := if s.validBeatCount < RATE_SIZE then s.validBeatCount + 1 else s.validBeatCount
      let avg := beatSum rates vbc / vbc
      ({ s with lastBeat := now, rates := rates, rateSpot := (s.rateSpot + 1) % RATE_SIZE,
                validBeatCount := vbc, beatAvg := avg, lastValidHR := (avg : ℚ) }, some v)
    else ({ s with lastBeat := now }, none)
  else (s, none)

/-- The acceptance rules applied when the SpO2 window completes (lines
365-372): the SpO2 result is cached only when the routine marks it
valid and it lies in [70, 100]; the secondary heart-rate estimate is
cached only when marked valid, within [40, 180], and BeatHistory still
has fewer than 4 valid entries. -/
def spo2Complete (validS : Bool) (sv : Int) (validH : Bool) (hv : Int) (vbc : Nat)
    (cachedSpO2 cachedHR : ℚ) : ℚ × ℚ :=
  (if validS = true ∧ 70 ≤ sv ∧ sv ≤ 100 then (sv : ℚ) else cachedSpO2,
   if validH = true ∧ 40 ≤ hv ∧ hv ≤ 180 ∧ vbc < 4 then (hv : ℚ) else cachedHR)

/-- The non-blocking SpO2 collection (lines 336-382): start a window
every SPO2_CALC_INTERVAL, take one paired sample every
SPO2_SAMPLE_INTERVAL when the sensor has one, and on the hundredth
sample run the estimation routine and apply the acceptance rules;
without contact the collection state is reset. -/
def processSpo2 (s : VitalState) (fd : Bool) (inp : VitalsInput) : VitalState :=
  if fd = true then
    let s1 :=
      if s.spo2CollectionActive = false ∧ SPO2_CALC_INTERVAL ≤ inp.now - s.lastSpO2Calc then
        { s with spo2CollectionActive := true, spo2SampleIndex := 0, lastSpo2Sample := inp.now }
      else s
    if s1.spo2CollectionActive = true ∧ SPO2_SAMPLE_INTERVAL ≤ inp.now - s1.lastSpo2Sample then
      if inp.sensorAvail = true then
        if BUFFER_LENGTH ≤ s1.spo2SampleIndex + 1 then
          { s1 with lastSpo2Sample := inp.now, spo2SampleIndex := s1.spo2SampleIndex + 1,
                    spo2CollectionActive := false, lastSpO2Calc := inp.now,
                    lastValidSpO2 := (spo2Complete inp.validSPO2 inp.spo2Value inp.validHeartRate
                      inp.heartRateValue s1.validBeatCount s1.lastValidSpO2 s1.lastValidHR).1,
                    lastValidHR := (spo2Complete inp.validSPO2 inp.spo2Value inp.validHeartRate
                      inp.heartRateValue s1.validBeatCount s1.lastValidSpO2 s1.lastValidHR).2 }
        else { s1 with lastSpo2Sample := inp.now, spo2SampleIndex := s1.spo2SampleIndex + 1 }
      else { s1 with lastSpo2Sample := inp.now }
    else s1
  else
    { s with spo2CollectionActive := false, spo2SampleIndex := 0 }

/-- The per-iteration result: the new pipeline state, the heart rate
and SpO2 the loop reports for this iteration (lines 385-386), and the
sample pushed into BeatHistory, if any. -/
structure VitalsOut where
  state : VitalState
  currentHR : ℚ
  currentSpO2 : ℚ
  stored : Option Nat
deriving Repr, DecidableEq

/-- One full pipeline pass of the control loop, in source order:
contact gating and reset, beat processing, SpO2 collection, and the
reported values. -/
def vitalsStep (s : VitalState) (inp : VitalsInput) : VitalsOut :=
  let fd : Bool := decide (50000 < inp.irValue)
  let s1 := resetOnRemoval s fd
  let s2 := { s1 with wasFingerDetected := fd }
  let r := processBeat s2 fd inp.beatDetected inp.now
  let s4 := processSpo2 r.1 fd inp
  { state := s4,
    currentHR := if fd = true then s4.lastValidHR else 0,
    currentSpO2 := if fd = true then s4.lastValidSpO2 else 0,
    stored := r.2 }

/-! ## Witness fixtures and the BeatHistory invariant -/

/-- A state that has contact and cached vitals, for witnesses. -/
def wornState : VitalState :=
  { bootVitals with wasFingerDetected := true, lastValidHR := 77, lastValidSpO2 := 95,
                    validBeatCount := 3, rateSpot := 3 }

/-- An input with the finger off the sensor, for witnesses. -/
def noContactInput : VitalsInput :=
  { now := 1000, irValue := 0, beatDetected := false, sensorAvail := false,
    spo2Value := 0, validSPO2 := false, heartRateValue := 0, validHeartRate := false }

/-- A state one sample short of a full SpO2 window, for witnesses. -/
def windowDueState : VitalState :=
  { bootVitals with spo2CollectionActive := true, spo2SampleIndex := 99 }

/-- An input completing the SpO2 window with a valid result, for
witnesses. -/
def windowDoneInput : VitalsInput :=
  { now := 50, irValue := 60000, beatDetected := false, sensorAvail := true,
    spo2Value := 95, validSPO2 := true, heartRateValue := 80, validHeartRate := true }

/-- The BeatHistory invariant: the ring has its fixed size, the write
cursor is in bounds and tracks the fill level while the ring is
filling, every valid entry lies in [40, 180], and so does the average
whenever at least one valid entry exists. -/
def BeatInv (s : VitalState) : Prop :=
  s.rates.length = RATE_SIZE ∧
  s.rateSpot < RATE_SIZE ∧
  s.validBeatCount ≤ RATE_SIZE ∧
  (s.validBeatCount < RATE_SIZE → s.rateSpot = s.validBeatCount) ∧
  (∀ i, i < s.validBeatCount → 40 ≤ s.rates.getD i 0 ∧ s.rates.getD i 0 ≤ 180) ∧
  (1 ≤ s.validBeatCount → 40 ≤ s.beatAvg ∧ s.beatAvg ≤ 180)

instance : DecidablePred BeatInv := fun s => by unfold BeatInv; infer_instance

/-! ## Theorems for claims C1 and C2 -/

/-- triggerEmergency is a no-op (and sends nothing) while the emergency
is active or handled (line 884). -/
theorem triggerEmergency_suppressed (s : EmergencyState) (now : Nat) (msg : String)
    (h : s.emergencyActive = true ∨ s.emergencyHandled = true) :
    triggerEmergency s now msg = (s, none) := by
  simp [triggerEmergency, if_pos h]

/-- A whole sequence of triggers is a no-op while active or handled. -/
theorem triggerSeq_suppressed (s : EmergencyState) (ts : List (Nat × String))
    (h : s.emergencyActive = true ∨ s.emergencyHandled = true) :
    triggerSeq s ts = (s, 0) := by
  induction ts with
  | nil => rfl
  | cons p rest ih =>
    obtain ⟨t, m⟩ := p
    simp [triggerSeq, triggerEmergency_suppressed s t m h, ih]

/-- C2: escalation is idempotent.  Any sequence of detector triggers
arriving while the emergency state is Active or Handled leaves the
state unchanged and sends no notification SMS, and any sequence of
triggers whatsoever sends at most one notification SMS. -/
theorem trigger_idempotent :
    (∀ (s : EmergencyState) (ts : List (Nat × String)),
      s.emergencyActive = true ∨ s.emergencyHandled = true → triggerSeq s ts = (s, 0)) ∧
    (∀ (s : EmergencyState) (ts : List (Nat × String)), (triggerSeq s ts).2 ≤ 1) := by
  refine ⟨triggerSeq_suppressed, ?_⟩
  intro s ts
  induction ts generalizing s with
  | nil => simp [triggerSeq]
  | cons p rest ih =>
    obtain ⟨t, m⟩ := p
    by_cases h : s.emergencyActive = true ∨ s.emergencyHandled = true
    · simpa [triggerSeq, triggerEmergency_suppressed s t m h] using ih s
    · simp only [triggerSeq, triggerEmergency, if_neg h]
      rw [triggerSeq_suppressed _ rest (Or.inl rfl)]
      simp

/-- Witness for trigger_idempotent at concrete inputs. -/
theorem trigger_idempotent_witness :
    triggerSeq { emergencyActive := true, emergencyHandled := false, lastCallTime := 0 }
        [(5, "a"), (9, "b")] =
      ({ emergencyActive := true, emergencyHandled := false, lastCallTime := 0 }, 0) ∧
    (triggerSeq bootEm [(5, "a"), (9, "b")]).2 ≤ 1 :=
  ⟨trigger_idempotent.1 _ _ (Or.inl rfl), trigger_idempotent.2 _ _⟩

/-- C1 (amended): per-iteration characterization of the two-stage fall
detector.  (1) An emergency with the FALL cause is raised in an
iteration exactly when a candidate was already pending, the
confirmation delay has elapsed since its detection time, the current
acceleration magnitude is below the stillness threshold, and no
emergency is active or handled.  (2) When it is raised the emergency
becomes active and the candidate is resolved.  (3) Otherwise the
emergency state is untouched.  (4) An impact (both magnitudes above
their thresholds) with no pending candidate and no emergency creates a
pending candidate stamped with the current time.  (5) A candidate never
survives past its first post-delay check: after any iteration a pending
candidate is either fresh from this iteration or still inside the
confirmation delay.  In particular the separate 1-second timeout branch
is unreachable, and a stillness reading at the first post-delay check
confirms the fall even when that check happens more than one second
after the impact. -/
theorem fall_confirm_characterization (s : FallState) (now : Nat) (am gm : ℚ) :
    ((fallStep s now am gm).2 = some FALL_CAUSE ↔
      s.fallPending = true ∧ FALL_CONFIRM_DELAY ≤ now - s.fallDetectedTime ∧
      am < POST_FALL_STILLNESS_THRESH ∧
      s.em.emergencyActive = false ∧ s.em.emergencyHandled = false) ∧
    ((fallStep s now am gm).2 = some FALL_CAUSE →
      (fallStep s now am gm).1.em.emergencyActive = true ∧
      (fallStep s now am gm).1.fallPending = false) ∧
    ((fallStep s now am gm).2 = none → (fallStep s now am gm).1.em = s.em) ∧
    (s.fallPending = false → s.em.emergencyActive = false → s.em.emergencyHandled = false →
      ACCEL_FALL_THRESH < am → GYRO_FALL_THRESH < gm →
      (fallStep s now am gm).1.fallPending = true ∧
      (fallStep s now am gm).1.fallDetectedTime = now) ∧
    ((fallStep s now am gm).1.fallPending = true →
      (fallStep s now am gm).1.fallDetectedTime = now ∨
        ((fallStep s now am gm).1.fallDetectedTime = s.fallDetectedTime ∧
         now - s.fallDetectedTime < FALL_CONFIRM_DELAY)) := by
  simp only [fallStep, fallImpact, fallConfirm, fallTimeout, triggerEmergency, FALL_CONFIRM_DELAY]
  split_ifs <;> simp_all <;> try (intros; by_contra hq; simp_all [not_le])

/-- Witness for fall_confirm_characterization: a pending candidate with
a still wearer at the post-delay check raises the FALL emergency, and an
impact on the idle state creates a candidate. -/
theorem fall_confirm_witness :
    (fallStep { fallPending := true, fallDetectedTime := 0, em := bootEm } 400 5 0).2 =
      some FALL_CAUSE ∧
    (fallStep bootFall 0 30 250).1.fallPending = true := by
  have h1 := fall_confirm_characterization
    { fallPending := true, fallDetectedTime := 0, em := bootEm } 400 5 0
  have h2 := fall_confirm_characterization bootFall 0 30 250
  exact ⟨h1.1.mpr ⟨rfl, by decide, by decide, rfl, rfl⟩,
    (h2.2.2.2.1 rfl rfl rfl (by decide) (by decide)).1⟩

/-- Counterexample to C1 as stated: from the idle boot state, an impact
at time 0 followed by the next loop iteration only at time 1200 — more
than the 1-second timeout after the impact, so the claim says the
candidate is discarded and no emergency raised — still confirms the
fall and raises the FALL emergency, because the stillness check runs
before the timeout check in the same iteration. -/
theorem fall_late_confirm_counterexample :
    (fallStep bootFall 0 30 250).1.fallPending = true ∧
    (fallStep bootFall 0 30 250).1.fallDetectedTime = 0 ∧
    1000 < 1200 - (fallStep bootFall 0 30 250).1.fallDetectedTime ∧
    (fallStep (fallStep bootFall 0 30 250).1 1200 5 0).2 = some FALL_CAUSE ∧
    (fallStep (fallStep bootFall 0 30 250).1 1200 5 0).1.em.emergencyActive = true := by
  decide

/-! ## Theorems for claims C7 and C10 -/

/-- A quiet SMS poll (one without an acknowledgment message) never sets
the handled flag and never touches lastCallTime. -/
theorem checkSms_quiet (s : EmergencyState) (q : SmsPoll)
    (h : ¬(q.avail = true ∧ q.hasCMTI = true ∧ q.contentHasOK = true))
    (hs : s.emergencyHandled = false) :
    (checkForIncomingSMS s q).emergencyHandled = false ∧
    (checkForIncomingSMS s q).lastCallTime = s.lastCallTime := by
  unfold checkForIncomingSMS
  split_ifs <;> simp_all

/-- C7: an acknowledgment message received during an in-progress call
attempt is acted on at the very poll cycle that reads it: the state
becomes Handled (active flag cleared), the monitor returns with the
ackBySMS outcome — which in the source hangs up the call (ATH) and
returns from handleEmergencyCalls — and exactly the polls up to and
including the acknowledging one are consumed. -/
theorem ack_cancels_call (s : EmergencyState) (ps₁ : List CallPoll) (p : CallPoll)
    (ps₂ : List CallPoll)
    (hs : s.emergencyHandled = false)
    (hq : ∀ q ∈ ps₁, quietPoll q)
    (hp : p.sms.avail = true ∧ p.sms.hasCMTI = true ∧ p.sms.contentHasOK = true) :
    monitorCall s (ps₁ ++ p :: ps₂) =
      ({ emergencyActive := false, emergencyHandled := true, lastCallTime := s.lastCallTime },
        CallOutcome.ackBySMS, ps₁.length + 1) := by
  induction ps₁ generalizing s with
  | nil =>
    obtain ⟨h1, h2, h3⟩ := hp
    simp [monitorCall, checkForIncomingSMS, h1, h2, h3]
  | cons q rest ih =>
    have hqq := hq q (by simp)
    have hcs := checkSms_quiet s q.sms hqq.1 hs
    have ihh := ih (checkForIncomingSMS s q.sms) hcs.1 (fun r hr => hq r (by simp [hr]))
    simp [List.cons_append, monitorCall, hcs.1, hcs.2, ihh, if_neg hqq.2]

/-- Witness for ack_cancels_call: one quiet poll followed by an
acknowledging poll ends the monitor after two polls in the Handled
state. -/
theorem ack_cancels_call_witness :
    monitorCall { emergencyActive := true, emergencyHandled := false, lastCallTime := 0 }
        [{ sms := { avail := false, hasCMTI := false, contentHasOK := false,
                    contentHasResume := false }, clccAvail := false, clccAnswered := false },
         { sms := { avail := true, hasCMTI := true, contentHasOK := true,
                    contentHasResume := false }, clccAvail := false, clccAnswered := false }] =
      ({ emergencyActive := false, emergencyHandled := true, lastCallTime := 0 },
        CallOutcome.ackBySMS, 2) := by
  have h := ack_cancels_call
    { emergencyActive := true, emergencyHandled := false, lastCallTime := 0 }
    [{ sms := { avail := false, hasCMTI := false, contentHasOK := false,
                contentHasResume := false }, clccAvail := false, clccAnswered := false }]
    { sms := { avail := true, hasCMTI := true, contentHasOK := true,
               contentHasResume := false }, clccAvail := false, clccAnswered := false }
    [] rfl (by decide) ⟨rfl, rfl, rfl⟩
  simpa using h

/-- C10: the two emergency flags are mutually exclusive in every state
reachable from boot by any sequence of detector triggers, manual
triggers, call-answer events, SMS polls (acknowledgment or resume) and
reset commands: emergencyActive and emergencyHandled are never both
true, so Idle, Active and Handled are the only reachable flag
combinations. -/
theorem emergency_flags_mutex (evs : List EmEvent) :
    ((emRun bootEm evs).emergencyActive && (emRun bootEm evs).emergencyHandled) = false := by
  have key : ∀ (l : List EmEvent) (s : EmergencyState),
      (s.emergencyActive && s.emergencyHandled) = false →
      ((emRun s l).emergencyActive && (emRun s l).emergencyHandled) = false := by
    intro l
    induction l with
    | nil => intro s hs; exact hs
    | cons e rest ih =>
      intro s hs
      have hstep : ((emStep s e).emergencyActive && (emStep s e).emergencyHandled) = false := by
        cases e <;> (simp [emStep, triggerEmergency, checkForIncomingSMS]; try (split_ifs <;> simp_all))
      simpa only [emRun, List.foldl_cons] using ih (emStep s e) hstep
  exact key evs bootEm rfl

/-! ## Theorems for claims C4 and C6 -/

/-- C4 (amended): the WiFi upload path makes at most
MAX_UPLOAD_RETRIES = 3 POST attempts, reports success exactly when one
of the attempts it makes returns a positive (not merely non-negative)
response code, and reports failure without attempting when WiFi is
down. -/
theorem wifi_retry_bounded (resp : Nat → Int) :
    wifiAttemptsUsed resp MAX_UPLOAD_RETRIES 1 ≤ MAX_UPLOAD_RETRIES ∧
    (sendDataViaWiFi true resp = true ↔
      ∃ i, 1 ≤ i ∧ i ≤ MAX_UPLOAD_RETRIES ∧ 0 < resp i) ∧
    sendDataViaWiFi false resp = false := by
  have hloop : wifiLoop resp 3 1 = true ↔ (0 < resp 1 ∨ 0 < resp 2 ∨ 0 < resp 3) := by
    simp only [wifiLoop]
    norm_num
  refine ⟨?_, ?_, rfl⟩
  · simp only [MAX_UPLOAD_RETRIES, wifiAttemptsUsed]
    split_ifs <;> omega
  · have hsend : sendDataViaWiFi true resp = wifiLoop resp 3 1 := by
      simp [sendDataViaWiFi, MAX_UPLOAD_RETRIES]
    rw [hsend, hloop]
    constructor
    · rintro (h | h | h)
      · exact ⟨1, by omega, by norm_num [MAX_UPLOAD_RETRIES], h⟩
      · exact ⟨2, by omega, by norm_num [MAX_UPLOAD_RETRIES], h⟩
      · exact ⟨3, by omega, by norm_num [MAX_UPLOAD_RETRIES], h⟩
    · rintro ⟨i, hi1, hi3, hpos⟩
      simp only [MAX_UPLOAD_RETRIES] at hi3
      interval_cases i
      · exact Or.inl hpos
      · exact Or.inr (Or.inl hpos)
      · exact Or.inr (Or.inr hpos)

/-- Witness for wifi_retry_bounded: a failure code then a 200 succeeds
within the attempt budget. -/
theorem wifi_retry_bounded_witness :
    sendDataViaWiFi true (fun i => if i = 2 then 200 else -11) = true :=
  (wifi_retry_bounded (fun i => if i = 2 then 200 else -11)).2.1.mpr
    ⟨2, by omega, by norm_num [MAX_UPLOAD_RETRIES], by norm_num⟩

/-- Counterexample to C4 as stated: a response code of 0 is
non-negative, yet the upload path reports failure on it — success
requires a strictly positive code (line 521). -/
theorem wifi_nonneg_counterexample :
    sendDataViaWiFi true (fun _ => 0) = false ∧ (0 : Int) ≤ 0 := by decide

/-- C6 (amended): the exact key sets of the three upload payloads, in
insertion order.  All three carry device_id, heart_rate, spo2, the six
motion components, gps_lat and gps_long; the periodic and emergency
payloads also carry timestamp, but the queued-retry payload does not;
the flags emergency and manual_trigger appear exactly on the escalated
payload and queued exactly on the retried payload. -/
theorem payload_keys (dev : String) (hr spo2 ax ay az gx gy gz : ℚ) (ts : Nat) :
    (periodicPayload dev hr spo2 ax ay az gx gy gz ts).map Prod.fst =
      ["device_id", "heart_rate", "spo2", "accel_x", "accel_y", "accel_z",
       "gyro_x", "gyro_y", "gyro_z", "timestamp", "gps_lat", "gps_long"] ∧
    (emergencyPayload dev hr spo2 ax ay az gx gy gz ts).map Prod.fst =
      ["device_id", "heart_rate", "spo2", "accel_x", "accel_y", "accel_z",
       "gyro_x", "gyro_y", "gyro_z", "timestamp", "emergency", "manual_trigger",
       "gps_lat", "gps_long"] ∧
    (queuedPayload dev hr spo2 ax ay az gx gy gz).map Prod.fst =
      ["device_id", "heart_rate", "spo2", "accel_x", "accel_y", "accel_z",
       "gyro_x", "gyro_y", "gyro_z", "queued", "gps_lat", "gps_long"] :=
  ⟨rfl, rfl, rfl⟩

/-- Counterexample to C6 as stated: the queued-retry payload contains no
timestamp field (uploadQueuedData, lines 717-729, never inserts one),
while carrying the queued flag. -/
theorem queued_payload_missing_timestamp :
    (((queuedPayload "A" 0 0 0 0 0 0 0 0).map Prod.fst).contains "timestamp") = false ∧
    (((queuedPayload "A" 0 0 0 0 0 0 0 0).map Prod.fst).contains "queued") = true := by
  decide

/-! ## Theorems for claim C5 -/

theorem getD_set_self {α : Type _} (l : List α) (k : Nat) (v d : α) (h : k < l.length) :
    (l.set k v).getD k d = v := by
  induction l generalizing k with
  | nil => simp at h
  | cons a t ih =>
    cases k with
    | zero => rfl
    | succ k => exact ih k (by simpa using h)

theorem getD_set_ne {α : Type _} (l : List α) (k i : Nat) (v d : α) (h : i ≠ k) :
    (l.set k v).getD i d = l.getD i d := by
  induction l generalizing k i with
  | nil => simp [List.set]
  | cons a t ih =>
    cases k with
    | zero =>
      cases i with
      | zero => exact absurd rfl h
      | succ i => rfl
    | succ k =>
      cases i with
      | zero => rfl
      | succ i => exact ih k i (fun hh => h (by omega))

theorem getD_replicate {α : Type _} (n i : Nat) (a : α) :
    (List.replicate n a).getD i a = a := by
  induction n generalizing i with
  | zero => simp [List.getD]
  | succ n ih =>
    cases i with
    | zero => rfl
    | succ i => exact ih i

theorem qinv_boot : QInv bootQueue := by
  refine ⟨by simp [bootQueue], by simp [bootQueue], by simp [bootQueue], ?_⟩
  intro i hi hp
  rw [bootQueue] at hp
  simp only at hp
  rw [getD_replicate] at hp
  simp [emptySlot] at hp

theorem qinv_enq (q : QueueState) (d : SensorData) (h : QInv q) : QInv (queueData q d) := by
  obtain ⟨hlen, hslen, hhead, hp⟩ := h
  have hhlt : q.queueHead < DATA_QUEUE_SIZE := by
    rw [hhead]; exact Nat.mod_lt _ (by norm_num [DATA_QUEUE_SIZE])
  refine ⟨by simpa [queueData] using hlen, by simpa [queueData] using hslen, ?_, ?_⟩
  · simp only [queueData, DATA_QUEUE_SIZE] at hhead ⊢
    omega
  · intro i hi hpend
    simp only [queueData] at hpend ⊢
    by_cases hik : i = q.queueHead
    · subst hik
      rw [getD_set_self _ _ _ _ (by omega)]
      refine ⟨by omega, by norm_num [DATA_QUEUE_SIZE], hhead.symm⟩
    · rw [getD_set_ne _ _ _ _ _ hik] at hpend
      rw [getD_set_ne _ _ _ _ _ hik]
      have := hp i hi hpend
      simp only [DATA_QUEUE_SIZE] at *
      omega

theorem qinv_clear (q : QueueState) (i : Nat) (h : QInv q) : QInv (clearSlot q i) := by
  obtain ⟨hlen, hslen, hhead, hp⟩ := h
  refine ⟨by simpa [clearSlot] using hlen, by simpa [clearSlot] using hslen,
    by simpa [clearSlot] using hhead, ?_⟩
  intro j hj hpend
  simp only [clearSlot] at hpend ⊢
  by_cases hji : j = i
  · subst hji
    by_cases hlt : j < q.dataQueue.length
    · rw [getD_set_self _ _ _ _ hlt] at hpend
      simp at hpend
    · rw [List.set_eq_of_length_le (by omega)] at hpend
      exact hp j hj hpend
  · rw [getD_set_ne _ _ _ _ _ hji] at hpend
    exact hp j hj hpend

theorem qinv_run (ops : List QOp) (q : QueueState) (h : QInv q) : QInv (qRun q ops) := by
  induction ops generalizing q with
  | nil => exact h
  | cons op rest ih =>
    have hstep : QInv (qApply q op) := by
      cases op with
      | enq d => exact qinv_enq q d h
      | clear i => exact qinv_clear q i h
    simpa only [qRun, List.foldl_cons] using ih (qApply q op) hstep

/-- C5: after any sequence of queue operations from boot, the queue
still has exactly DATA_QUEUE_SIZE = 5 slots, the write index is in
bounds (so the write never faults), an enqueue writes only at the write
index, and when every slot is pending (full queue) the slot at the
write index — the one the next enqueue overwrites — carries the
strictly oldest pending write. -/
theorem queue_bounded_overwrites_oldest (ops : List QOp) :
    (qRun bootQueue ops).dataQueue.length = DATA_QUEUE_SIZE ∧
    (qRun bootQueue ops).queueHead < DATA_QUEUE_SIZE ∧
    (∀ (d : SensorData) (j : Nat), j < DATA_QUEUE_SIZE → j ≠ (qRun bootQueue ops).queueHead →
      (queueData (qRun bootQueue ops) d).dataQueue.getD j emptySlot =
        (qRun bootQueue ops).dataQueue.getD j emptySlot) ∧
    (∀ d : SensorData,
      (queueData (qRun bootQueue ops) d).dataQueue.getD (qRun bootQueue ops).queueHead emptySlot =
        { d with pending := true }) ∧
    ((∀ i, i < DATA_QUEUE_SIZE →
        ((qRun bootQueue ops).dataQueue.getD i emptySlot).pending = true) →
      ∀ j, j < DATA_QUEUE_SIZE → j ≠ (qRun bootQueue ops).queueHead →
        (qRun bootQueue ops).stamps.getD (qRun bootQueue ops).queueHead 0 <
          (qRun bootQueue ops).stamps.getD j 0) := by
  have hinv := qinv_run ops bootQueue qinv_boot
  obtain ⟨hlen, hslen, hhead, hp⟩ := hinv
  have hhlt : (qRun bootQueue ops).queueHead < DATA_QUEUE_SIZE := by
    rw [hhead]; exact Nat.mod_lt _ (by norm_num [DATA_QUEUE_SIZE])
  refine ⟨hlen, hhlt, ?_, ?_, ?_⟩
  · intro d j hj hne
    simp only [queueData]
    exact getD_set_ne _ _ _ _ _ hne
  · intro d
    simp only [queueData]
    exact getD_set_self _ _ _ _ (by omega)
  · intro hfull j hj hne
    have hh := hp _ hhlt (hfull _ hhlt)
    have hjj := hp _ hj (hfull _ hj)
    simp only [DATA_QUEUE_SIZE] at *
    omega

/-- Witness for queue_bounded_overwrites_oldest: five enqueues fill the
queue; the head slot (slot 0) then holds the oldest stamp. -/
theorem queue_overwrites_witness :
    (qRun bootQueue (List.replicate 5 (QOp.enq emptySlot))).queueHead < DATA_QUEUE_SIZE ∧
    (qRun bootQueue (List.replicate 5 (QOp.enq emptySlot))).stamps.getD 0 0 <
      (qRun bootQueue (List.replicate 5 (QOp.enq emptySlot))).stamps.getD 1 0 := by
  have h := queue_bounded_overwrites_oldest (List.replicate 5 (QOp.enq emptySlot))
  refine ⟨h.2.1, ?_⟩
  have hfull : ∀ i, i < DATA_QUEUE_SIZE →
      ((qRun bootQueue (List.replicate 5 (QOp.enq emptySlot))).dataQueue.getD i
        emptySlot).pending = true := by decide
  have hhead : (qRun bootQueue (List.replicate 5 (QOp.enq emptySlot))).queueHead = 0 := by decide
  have := h.2.2.2.2 hfull 1 (by norm_num [DATA_QUEUE_SIZE]) (by rw [hhead]; omega)
  rwa [hhead] at this

/-! ## Theorems for claims C3, C8 and C9 -/

theorem processBeat_nofinger (s : VitalState) (beat : Bool) (now : Nat) :
    processBeat s false beat now = (s, none) := by
  simp [processBeat]

theorem processSpo2_nofinger (s : VitalState) (inp : VitalsInput) :
    processSpo2 s false inp =
      { s with spo2CollectionActive := false, spo2SampleIndex := 0 } := by
  simp [processSpo2]

/-- C3: whenever contact is absent (raw infrared at or below the 50000
threshold), the iteration reports heart rate 0 and SpO2 0 and stores no
beat; if contact was present on the previous iteration (contact just
lost), the whole BeatHistory ring, the valid count, the average and
both cached vitals are cleared before any beat processing; if contact
was already absent, the ring and caches are left untouched. -/
theorem contact_loss_clears (s : VitalState) (inp : VitalsInput)
    (hnc : inp.irValue ≤ 50000) :
    ((vitalsStep s inp).currentHR = 0 ∧ (vitalsStep s inp).currentSpO2 = 0 ∧
     (vitalsStep s inp).stored = none ∧
     (vitalsStep s inp).state.wasFingerDetected = false) ∧
    (s.wasFingerDetected = true →
      (vitalsStep s inp).state.rates = List.replicate RATE_SIZE 0 ∧
      (vitalsStep s inp).state.rateSpot = 0 ∧
      (vitalsStep s inp).state.validBeatCount = 0 ∧
      (vitalsStep s inp).state.beatAvg = 0 ∧
      (vitalsStep s inp).state.lastValidHR = 0 ∧
      (vitalsStep s inp).state.lastValidSpO2 = 0) ∧
    (s.wasFingerDetected = false →
      (vitalsStep s inp).state.rates = s.rates ∧
      (vitalsStep s inp).state.rateSpot = s.rateSpot ∧
      (vitalsStep s inp).state.validBeatCount = s.validBeatCount ∧
      (vitalsStep s inp).state.beatAvg = s.beatAvg ∧
      (vitalsStep s inp).state.lastValidHR = s.lastValidHR ∧
      (vitalsStep s inp).state.lastValidSpO2 = s.lastValidSpO2) := by
  have hfd : decide (50000 < inp.irValue) = false := by
    simp only [decide_eq_false_iff_not, not_lt]
    exact hnc
  simp only [vitalsStep, hfd, processBeat_nofinger, processSpo2_nofinger, resetOnRemoval]
  by_cases hw : s.wasFingerDetected = true
  · simp [hw]
  · simp only [Bool.not_eq_true] at hw
    simp [hw]

/-- Witness for contact_loss_clears: losing contact clears a state with
cached vitals and reports zeros. -/
theorem contact_loss_clears_witness :
    (vitalsStep wornState noContactInput).currentHR = 0 ∧
    (vitalsStep wornState noContactInput).state.lastValidHR = 0 := by
  have h := contact_loss_clears wornState noContactInput (by norm_num [noContactInput])
  exact ⟨h.1.1, (h.2.1 rfl).2.2.2.2.1⟩

theorem beatSum_bounds (rates : List Nat) (n : Nat)
    (h : ∀ i, i < n → 40 ≤ rates.getD i 0 ∧ rates.getD i 0 ≤ 180) :
    40 * n ≤ beatSum rates n ∧ beatSum rates n ≤ 180 * n := by
  induction n with
  | zero => simp [beatSum]
  | succ n ih =>
    have hb := h n (by omega)
    have ihh := ih (fun i hi => h i (by omega))
    simp only [beatSum]
    omega

theorem beatAvg_bounds (rates : List Nat) (n : Nat) (hn : 1 ≤ n)
    (h : ∀ i, i < n → 40 ≤ rates.getD i 0 ∧ rates.getD i 0 ≤ 180) :
    40 ≤ beatSum rates n / n ∧ beatSum rates n / n ≤ 180 := by
  obtain ⟨h1, h2⟩ := beatSum_bounds rates n h
  constructor
  · exact (Nat.le_div_iff_mul_le (by omega)).mpr (by omega)
  · calc beatSum rates n / n ≤ 180 * n / n := Nat.div_le_div_right h2
      _ = 180 := Nat.mul_div_cancel _ (by omega)

theorem floor_bpm_bounds (q : ℚ) (h1 : 40 ≤ q) (h2 : q ≤ 180) :
    40 ≤ (Int.floor q).toNat ∧ (Int.floor q).toNat ≤ 180 := by
  have hf1 : (40 : ℤ) ≤ Int.floor q := by
    rw [Int.le_floor]
    exact_mod_cast h1
  have hf2 : Int.floor q ≤ (180 : ℤ) := by
    have hle : (Int.floor q : ℚ) ≤ 180 := le_trans (Int.floor_le q) h2
    exact_mod_cast hle
  omega

theorem set_keeps_range (rates : List Nat) (spot v n m : Nat) (hlen : rates.length = 8)
    (hspot : spot < 8) (hv : 40 ≤ v ∧ v ≤ 180)
    (hold : ∀ i, i < n → 40 ≤ rates.getD i 0 ∧ rates.getD i 0 ≤ 180)
    (hm : ∀ i, i < m → i = spot ∨ i < n) :
    ∀ i, i < m → 40 ≤ (rates.set spot v).getD i 0 ∧ (rates.set spot v).getD i 0 ≤ 180 := by
  intro i hi
  by_cases hie : i = spot
  · subst hie
    rw [getD_set_self _ _ _ _ (by omega)]
    exact hv
  · rw [getD_set_ne _ _ _ _ _ hie]
    rcases hm i hi with he | hlt2
    · exact absurd he hie
    · exact hold i hlt2

theorem resetOnRemoval_inv (s : VitalState) (fd : Bool) (h : BeatInv s) :
    BeatInv (resetOnRemoval s fd) := by
  unfold resetOnRemoval
  split_ifs with hc
  · refine ⟨?_, ?_, ?_, ?_, ?_, ?_⟩ <;> simp [RATE_SIZE]
  · exact h

theorem processBeat_inv (s : VitalState) (fd beat : Bool) (now : Nat) (h : BeatInv s) :
    BeatInv (processBeat s fd beat now).1 ∧
    (∀ v, (processBeat s fd beat now).2 = some v → 40 ≤ v ∧ v ≤ 180) := by
  obtain ⟨hlen, hspot, hvbc, hsync, hrange, havg⟩ := h
  simp only [processBeat]
  split_ifs with hg hr hlt
  · -- beat accepted while the ring is still filling
    obtain ⟨hrl, hru⟩ := hr
    have hv := floor_bpm_bounds _ hrl hru
    simp only [BeatInv, RATE_SIZE] at hlen hspot hvbc hsync hlt ⊢
    have hsp := hsync hlt
    have hrng := set_keeps_range s.rates s.rateSpot _ s.validBeatCount
      (s.validBeatCount + 1) hlen hspot hv hrange (by omega)
    refine ⟨⟨by simp [hlen], by omega, by omega,
      by omega, hrng, fun hone => beatAvg_bounds _ _ (by omega) hrng⟩, ?_⟩
    intro v hveq
    simp only [Option.some.injEq] at hveq
    subst hveq
    exact hv
  · -- beat accepted with the ring already full
    obtain ⟨hrl, hru⟩ := hr
    have hv := floor_bpm_bounds _ hrl hru
    simp only [BeatInv, RATE_SIZE] at hlen hspot hvbc hsync hlt ⊢
    have hrng := set_keeps_range s.rates s.rateSpot _ s.validBeatCount
      s.validBeatCount hlen hspot hv hrange (by omega)
    refine ⟨⟨by simp [hlen], by omega, by omega,
      by omega, hrng, fun hone => beatAvg_bounds _ _ (by omega) hrng⟩, ?_⟩
    intro v hveq
    simp only [Option.some.injEq] at hveq
    subst hveq
    exact hv
  · -- beat rejected by the [40, 180] filter: only lastBeat changes
    exact ⟨⟨hlen, hspot, hvbc, hsync, hrange, havg⟩, by simp⟩
  · -- no contact or no beat
    exact ⟨⟨hlen, hspot, hvbc, hsync, hrange, havg⟩, by simp⟩

theorem processSpo2_fields (s : VitalState) (fd : Bool) (inp : VitalsInput) :
    (processSpo2 s fd inp).rates = s.rates ∧
    (processSpo2 s fd inp).rateSpot = s.rateSpot ∧
    (processSpo2 s fd inp).validBeatCount = s.validBeatCount ∧
    (processSpo2 s fd inp).beatAvg = s.beatAvg := by
  simp only [processSpo2]
  split_ifs <;> simp

theorem beatInv_transport (a b : VitalState)
    (h1 : a.rates = b.rates) (h2 : a.rateSpot = b.rateSpot)
    (h3 : a.validBeatCount = b.validBeatCount) (h4 : a.beatAvg = b.beatAvg)
    (h : BeatInv b) : BeatInv a := by
  unfold BeatInv at h ⊢
  rw [h1, h2, h3, h4]
  exact h

/-- C8: the BeatHistory invariant is preserved by every iteration of
the pipeline, every sample the iteration stores into BeatHistory lies
in [40, 180], and whenever at least one valid entry exists the average
lies in [40, 180]; the invariant holds at boot. -/
theorem beat_history_bounds (s : VitalState) (inp : VitalsInput) (h : BeatInv s) :
    BeatInv (vitalsStep s inp).state ∧
    (∀ v, (vitalsStep s inp).stored = some v → 40 ≤ v ∧ v ≤ 180) ∧
    (1 ≤ (vitalsStep s inp).state.validBeatCount →
      40 ≤ (vitalsStep s inp).state.beatAvg ∧ (vitalsStep s inp).state.beatAvg ≤ 180) ∧
    BeatInv bootVitals := by
  have h1 : BeatInv (resetOnRemoval s (decide (50000 < inp.irValue))) :=
    resetOnRemoval_inv s _ h
  have h2 : BeatInv { resetOnRemoval s (decide (50000 < inp.irValue)) with
      wasFingerDetected := decide (50000 < inp.irValue) } := h1
  have h3 := processBeat_inv { resetOnRemoval s (decide (50000 < inp.irValue)) with
      wasFingerDetected := decide (50000 < inp.irValue) }
    (decide (50000 < inp.irValue)) inp.beatDetected inp.now h2
  have hfields := processSpo2_fields
    (processBeat { resetOnRemoval s (decide (50000 < inp.irValue)) with
        wasFingerDetected := decide (50000 < inp.irValue) }
      (decide (50000 < inp.irValue)) inp.beatDetected inp.now).1
    (decide (50000 < inp.irValue)) inp
  have hstate : BeatInv (vitalsStep s inp).state := by
    simp only [vitalsStep]
    exact beatInv_transport _ _ hfields.1 hfields.2.1 hfields.2.2.1 hfields.2.2.2 h3.1
  refine ⟨hstate, ?_, fun hone => hstate.2.2.2.2.2 hone, by decide⟩
  intro v hv
  refine h3.2 v ?_
  simpa only [vitalsStep] using hv

/-- Witness for beat_history_bounds at the boot state. -/
theorem beat_history_bounds_witness :
    BeatInv (vitalsStep bootVitals noContactInput).state :=
  (beat_history_bounds bootVitals noContactInput (by decide)).1

/-- C9: when the SpO2 window completes this iteration (contact present,
an active collection due for a sample, the sensor has one, and it is
the hundredth), the cached SpO2 becomes the routine result exactly when
the routine marks it valid and it lies in [70, 100], the cached heart
rate becomes the secondary estimate exactly when marked valid, within
[40, 180], and BeatHistory has fewer than 4 valid entries; otherwise
each cached value is unchanged.  Stated with no beat this iteration so
the pre-state caches are the reference. -/
theorem spo2_window_update (s : VitalState) (inp : VitalsInput)
    (hf : 50000 < inp.irValue) (hb : inp.beatDetected = false)
    (hact : s.spo2CollectionActive = true)
    (hdue : SPO2_SAMPLE_INTERVAL ≤ inp.now - s.lastSpo2Sample)
    (hav : inp.sensorAvail = true)
    (hidx : BUFFER_LENGTH ≤ s.spo2SampleIndex + 1) :
    (vitalsStep s inp).state.lastValidSpO2 =
      (if inp.validSPO2 = true ∧ 70 ≤ inp.spo2Value ∧ inp.spo2Value ≤ 100
        then (inp.spo2Value : ℚ) else s.lastValidSpO2) ∧
    (vitalsStep s inp).state.lastValidHR =
      (if inp.validHeartRate = true ∧ 40 ≤ inp.heartRateValue ∧ inp.heartRateValue ≤ 180 ∧
          s.validBeatCount < 4
        then (inp.heartRateValue : ℚ) else s.lastValidHR) ∧
    (vitalsStep s inp).state.spo2CollectionActive = false := by
  have hfd : decide (50000 < inp.irValue) = true := by simpa using hf
  simp [vitalsStep, hfd, hb, resetOnRemoval, processBeat, processSpo2, spo2Complete,
    hact, hdue, hav, hidx]

/-- Witness for spo2_window_update: a completing window with a valid
SpO2 of 95 and a valid secondary heart rate of 80 on an almost-empty
BeatHistory caches both. -/
theorem spo2_window_update_witness :
    (vitalsStep windowDueState windowDoneInput).state.lastValidSpO2 = ((95 : Int) : ℚ) ∧
    (vitalsStep windowDueState windowDoneInput).state.lastValidHR = ((80 : Int) : ℚ) := by
  have h := spo2_window_update windowDueState windowDoneInput
    (by norm_num [windowDoneInput]) rfl rfl
    (by norm_num [windowDueState, windowDoneInput, bootVitals, SPO2_SAMPLE_INTERVAL]) rfl
    (by norm_num [windowDueState, bootVitals, BUFFER_LENGTH])
  refine ⟨?_, ?_⟩
  · rw [h.1]
    norm_num [windowDoneInput]
  · rw [h.2.1]
    norm_num [windowDoneInput, windowDueState, bootVitals]

end PulseAI
